import Mathlib

/-!
Shallow embedding of the CodeTec1/property-bot-backend conversation router
(`handleMessage`, the enhanced variant that the specification's state-machine
table documents: first function of `src/unnamed/part_000`, lines 3-671) and of
the slot-calculation endpoint `/api/available-slots` (`src/server.js`,
lines 161-233).

Strings are modelled over `List Char` with structural-recursive re-implementations
of the JavaScript string primitives used by the source (`toLowerCase`, `trim`,
`split`, `includes`, the concrete regular expressions, `parseInt`, `parseFloat`).
JavaScript numbers produced by budget parsing are modelled as exact decimal
values (mantissa / power of ten); on every value reachable in the claims these
coincide with IEEE doubles.  Times in the slot endpoint are integer milliseconds
in a fixed-offset local timezone (the deployment timezone, Africa/Nairobi, has
no DST).
-/

set_option autoImplicit false

namespace PropertyBot

/-! ## JavaScript string primitives -/

/-- ASCII lower-casing of a single character, as `String.prototype.toLowerCase`
acts on the ASCII range. -/
def lowerChar (c : Char) : Char :=
  if 'A' ≤ c ∧ c ≤ 'Z' then Char.ofNat (c.toNat + 32) else c

/-- ASCII upper-casing of a single character, as `String.prototype.toUpperCase`
acts on the ASCII range. -/
def upperChar (c : Char) : Char :=
  if 'a' ≤ c ∧ c ≤ 'z' then Char.ofNat (c.toNat - 32) else c

/-- `String.prototype.toLowerCase` (ASCII range). -/
def jsToLower (s : String) : String := String.mk (s.data.map lowerChar)

/-- `String.prototype.toUpperCase` (ASCII range). -/
def jsToUpper (s : String) : String := String.mk (s.data.map upperChar)

/-- The JavaScript whitespace class used by `trim`, `split(/\s+/)` and `\s`
(ASCII part). -/
def isJsSpace (c : Char) : Bool :=
  c = ' ' || c = '\t' || c = '\n' || c = '\r' || c.toNat = 11 || c.toNat = 12

def trimLeftL : List Char → List Char
  | [] => []
  | c :: cs => if isJsSpace c then trimLeftL cs else c :: cs

def trimRightL (cs : List Char) : List Char :=
  (trimLeftL cs.reverse).reverse

/-- `String.prototype.trim`. -/
def jsTrim (s : String) : String := String.mk (trimRightL (trimLeftL s.data))

def isPrefixOfL : List Char → List Char → Bool
  | [], _ => true
  | _ :: _, [] => false
  | p :: ps, c :: cs => p = c && isPrefixOfL ps cs

/-- If `lit` is a prefix of the list, return the remainder. -/
def dropLitL : List Char → List Char → Option (List Char)
  | [], cs => some cs
  | _ :: _, [] => none
  | p :: ps, c :: cs => if p = c then dropLitL ps cs else none

def containsSubL (pat : List Char) : List Char → Bool
  | [] => isPrefixOfL pat []
  | c :: cs => isPrefixOfL pat (c :: cs) || containsSubL pat cs

/-- `String.prototype.includes` : `jsIncludes s pat` is `s.includes(pat)`. -/
def jsIncludes (s pat : String) : Bool := containsSubL pat.data s.data

/-- `String.prototype.split` with a single-character separator. -/
def splitOnCharL (sep : Char) : List Char → List (List Char)
  | [] => [[]]
  | c :: cs =>
    if c = sep then [] :: splitOnCharL sep cs
    else
      match splitOnCharL sep cs with
      | [] => [[c]]
      | w :: ws => (c :: w) :: ws

def consHead (c : Char) : List (List Char) → List (List Char)
  | [] => [[c]]
  | w :: ws => (c :: w) :: ws

mutual
/-- `String.prototype.split(/\s+/)`: state outside a whitespace run. -/
def splitWsA : List Char → List (List Char)
  | [] => [[]]
  | c :: cs => if isJsSpace c then [] :: splitWsB cs else consHead c (splitWsA cs)

/-- `String.prototype.split(/\s+/)`: state inside a whitespace run. -/
def splitWsB : List Char → List (List Char)
  | [] => [[]]
  | c :: cs => if isJsSpace c then splitWsB cs else consHead c (splitWsA cs)
end

def intercalateL (sep : List Char) : List (List Char) → List Char
  | [] => []
  | [w] => w
  | w :: ws => w ++ sep ++ intercalateL sep ws

def isDigitC (c : Char) : Bool := '0' ≤ c && c ≤ '9'

def isAlphaC (c : Char) : Bool :=
  ('a' ≤ c && c ≤ 'z') || ('A' ≤ c && c ≤ 'Z')

def digitsToNat (cs : List Char) : Nat :=
  cs.foldl (fun n c => n * 10 + (c.toNat - 48)) 0

def digitChar (n : Nat) : Char := Char.ofNat (48 + n)

def natDigitsAux : Nat → Nat → List Char → List Char
  | 0, _, acc => acc
  | fuel + 1, n, acc =>
    if n < 10 then digitChar n :: acc
    else natDigitsAux fuel (n / 10) (digitChar (n % 10) :: acc)

/-- Decimal digits of a natural number, as JavaScript `Number.prototype.toString`
prints a nonnegative integer. -/
def natReprL (n : Nat) : List Char := natDigitsAux (n + 1) n []

/-- The JavaScript falsy-or on strings (`a || b`). -/
def jsOrS (a b : String) : String := if a = "" then b else a

/-! ## The concrete regular expressions of the router

Each regular expression appearing in the source is compiled by hand to a
structural-recursive matcher with the exact semantics of the JavaScript regex
engine on that pattern (leftmost match, greedy quantifiers, `.` excluding line
terminators). -/

/-- A line terminator, excluded by `.` in a JavaScript regex without the `s`
flag. -/
def isLineTermC (c : Char) : Bool :=
  c = '\n' || c = '\r' || c.toNat = 8232 || c.toNat = 8233

/-- Matcher for `/lit(.+)/`: leftmost occurrence of the literal `lit` followed
by at least one non-line-terminator character; the capture is the maximal run
of non-line-terminator characters after it. -/
def capAfterL (lit : List Char) : List Char → Option (List Char)
  | [] => none
  | c :: cs =>
    match dropLitL lit (c :: cs) with
    | some rest =>
      let cap := rest.takeWhile (fun d => !isLineTermC d)
      if cap ≠ [] then some cap else capAfterL lit cs
    | none => capAfterL lit cs

/-- Matcher for `/^(hi|hello|hey|start|helo|restart)$/` (source line 192),
applied to the lower-cased trimmed message. -/
def isGreeting (m : String) : Bool :=
  m = "hi" || m = "hello" || m = "hey" || m = "start" || m = "helo" || m = "restart"

/-- Matcher for `/^[a-zA-Z]{2,}(\s[a-zA-Z]{2,})*$/` (direct name input, source
line 269): words of at least two letters separated by single whitespace
characters.  Fuel-based; each step consumes at least two characters. -/
def nameShapeAux : Nat → List Char → Bool
  | 0, _ => false
  | fuel + 1, cs =>
    let w := cs.takeWhile isAlphaC
    let rest := cs.dropWhile isAlphaC
    if w.length < 2 then false
    else
      match rest with
      | [] => true
      | c :: rest2 => isJsSpace c && nameShapeAux fuel rest2

def nameShape (cs : List Char) : Bool := nameShapeAux (cs.length + 1) cs

/-- Matcher for the unanchored `/[a-zA-Z]{2,}/` (location validation, source
line 384): two consecutive letters occur somewhere. -/
def hasTwoAlphaL : List Char → Bool
  | [] => false
  | [_] => false
  | a :: b :: cs => (isAlphaC a && isAlphaC b) || hasTwoAlphaL (b :: cs)

/-- Matcher for `/^\d+$/`. -/
def allDigitsL (cs : List Char) : Bool := cs ≠ [] && cs.all isDigitC

/-- Matcher for `/(\d+)\s*bed/i` (source line 422): capture of the first
digit run that is followed by optional whitespace and the literal `bed`. -/
def capNumBed : List Char → Option (List Char)
  | [] => none
  | c :: cs =>
    if isDigitC c then
      let ds := c :: cs.takeWhile isDigitC
      let rest := (cs.dropWhile isDigitC).dropWhile isJsSpace
      if isPrefixOfL ['b', 'e', 'd'] rest then some ds else capNumBed cs
    else capNumBed cs

/-- Matcher for `/i (want|need) (\d+)/i` (source line 424): second capture. -/
def capIWantNeedNum : List Char → Option (List Char)
  | [] => none
  | c :: cs =>
    match dropLitL "i want ".data (c :: cs), dropLitL "i need ".data (c :: cs) with
    | some rest, _ =>
      let ds := rest.takeWhile isDigitC
      if ds ≠ [] then some ds else capIWantNeedNum cs
    | none, some rest =>
      let ds := rest.takeWhile isDigitC
      if ds ≠ [] then some ds else capIWantNeedNum cs
    | none, none => capIWantNeedNum cs

/-- Matcher for `/i (want|need) (.+)/i` (source line 482): second capture. -/
def capIWantNeedAny : List Char → Option (List Char)
  | [] => none
  | c :: cs =>
    match dropLitL "i want ".data (c :: cs), dropLitL "i need ".data (c :: cs) with
    | some rest, _ =>
      let cap := rest.takeWhile (fun d => !isLineTermC d)
      if cap ≠ [] then some cap else capIWantNeedAny cs
    | none, some rest =>
      let cap := rest.takeWhile (fun d => !isLineTermC d)
      if cap ≠ [] then some cap else capIWantNeedAny cs
    | none, none => capIWantNeedAny cs

/-- Matcher for `/lit\s*(\d+)/i` (property, number or slot selectors, source
lines 536, 540, 570, 574): digit-run capture after the literal and optional
whitespace. -/
def capLitWsNum (lit : List Char) : List Char → Option (List Char)
  | [] => none
  | c :: cs =>
    match dropLitL lit (c :: cs) with
    | some rest =>
      let ds := (rest.dropWhile isJsSpace).takeWhile isDigitC
      if ds ≠ [] then some ds else capLitWsNum lit cs
    | none => capLitWsNum lit cs

/-- Matcher for `/(\d+x\d+|\d+\/\d+|\d+\s*acre)/i` (plot-size shapes, source
line 480): existence test. -/
def hasPlotPattern : List Char → Bool
  | [] => false
  | c :: cs =>
    (if isDigitC c then
      let rest := cs.dropWhile isDigitC
      (match rest with
       | 'x' :: r2 => (r2.takeWhile isDigitC) ≠ []
       | '/' :: r2 => (r2.takeWhile isDigitC) ≠ []
       | _ => false)
      || isPrefixOfL "acre".data (rest.dropWhile isJsSpace)
    else false)
    || hasPlotPattern cs

/-- Character class `[0-9.,mkMK]` of the budget cleaning step (source
line 328). -/
def isBudgetKeepC (c : Char) : Bool :=
  isDigitC c || c = '.' || c = ',' || c = 'm' || c = 'k' || c = 'M' || c = 'K'

/-- The cleaning step `budgetStr.replace(/[^0-9.,mkMK]/g, '').toUpperCase()`
(source line 328). -/
def cleanBudget (cs : List Char) : List Char :=
  (cs.filter isBudgetKeepC).map upperChar

/-- Matcher for `/^[\d.,]+[MK]?$/` (budget validation, source line 331). -/
def budgetShape (cs : List Char) : Bool :=
  let body := cs.takeWhile (fun c => isDigitC c || c = '.' || c = ',')
  let rest := cs.dropWhile (fun c => isDigitC c || c = '.' || c = ',')
  body ≠ [] && (rest = [] || rest = ['M'] || rest = ['K'])

/-! ## JavaScript numbers reachable from the router

Budget values are produced by `parseFloat` on strings of digits and dots and by
multiplication by powers of ten; they are represented exactly as decimals
`m / 10 ^ e` (`JNum.dec m e`), with `JNum.nan` for `NaN`. -/

inductive JNum where
  | nan
  | dec (m : Nat) (e : Nat)
deriving DecidableEq, Repr

/-- `parseFloat` restricted to the shapes it is applied to by the router
(strings of digits, dots and a trailing `M`/`K`; no sign, no exponent, no
leading whitespace can reach it after cleaning): parse a leading
`\d*(\.\d*)?` prefix, `NaN` when it contains no digit. -/
def jsParseFloat (cs : List Char) : JNum :=
  let ip := cs.takeWhile isDigitC
  let rest := cs.dropWhile isDigitC
  match rest with
  | '.' :: rest2 =>
    let fp := rest2.takeWhile isDigitC
    if ip = [] && fp = [] then JNum.nan
    else JNum.dec (digitsToNat (ip ++ fp)) fp.length
  | _ => if ip = [] then JNum.nan else JNum.dec (digitsToNat ip) 0

/-- Multiplication by `10 ^ k` (the `* 1000000` and `* 1000` of source
lines 347 and 349; exact on every value the claims mention). -/
def jnumMulPow10 (j : JNum) (k : Nat) : JNum :=
  match j with
  | JNum.nan => JNum.nan
  | JNum.dec m e => if e ≤ k then JNum.dec (m * 10 ^ (k - e)) 0 else JNum.dec m (e - k)

/-- Strip trailing zero decimals, recursing on the exponent. -/
def decNormalize : Nat → Nat → (Nat × Nat)
  | m, 0 => (m, 0)
  | m, e + 1 => if m % 10 = 0 then decNormalize (m / 10) e else (m, e + 1)

def padZeroesTo (len : Nat) (cs : List Char) : List Char :=
  List.replicate (len - cs.length) '0' ++ cs

/-- `Number.prototype.toString` on the reachable values (`NaN` and finite
nonnegative decimals below the exponential-notation threshold). -/
def jnumToString (j : JNum) : String :=
  match j with
  | JNum.nan => "NaN"
  | JNum.dec m e =>
    let p := decNormalize m e
    if p.2 = 0 then String.mk (natReprL p.1)
    else
      String.mk (natReprL (p.1 / 10 ^ p.2) ++ '.' ::
        padZeroesTo p.2 (natReprL (p.1 % 10 ^ p.2)))

def parseDigitsAsNat (cs : List Char) : Option Nat :=
  let ds := cs.takeWhile isDigitC
  if ds = [] then none else some (digitsToNat ds)

/-- `parseInt(s, 10)`: optional whitespace, optional sign, leading decimal
digits; `NaN` (`none`) when no digit follows. -/
def jsParseInt (cs : List Char) : Option Int :=
  match cs.dropWhile isJsSpace with
  | '-' :: r => (parseDigitsAsNat r).map (fun n => -(n : Int))
  | '+' :: r => (parseDigitsAsNat r).map (fun n => (n : Int))
  | r => (parseDigitsAsNat r).map (fun n => (n : Int))

/-! ## Data model -/

/-- A JavaScript value, for the one input field (`message`) whose dynamic type
the router touches before any validation: `input.message || ""` followed by
`.toLowerCase()` (source lines 6-7) throws when the field holds a truthy
non-string. -/
inductive JSVal where
  | str (s : String)
  | num (n : Int)
  | boolv (b : Bool)
  | nullv
  | undef
deriving DecidableEq, Repr

def jsValTruthy : JSVal → Bool
  | JSVal.str s => s ≠ ""
  | JSVal.num n => n ≠ 0
  | JSVal.boolv b => b
  | JSVal.nullv => false
  | JSVal.undef => false

/-- `const originalMessage = input.message || ""` followed by
`originalMessage.toLowerCase()` on the next source line: the original message
string, or a `TypeError` when the field holds a truthy non-string. -/
def origMessageE (v : JSVal) : Except String String :=
  if jsValTruthy v then
    match v with
    | JSVal.str s => Except.ok s
    | _ => Except.error "TypeError: originalMessage.toLowerCase is not a function"
  else Except.ok ""

/-- The flat input record of the router (section 6 of the specification;
fields as read by source lines 6-27 and 68-96).  String fields default to
`""` for absent values, as the HTTP layer supplies them. -/
structure Input where
  message : JSVal
  «from» : String
  lead_id : String
  lead_stage : String
  lead_interest : String
  lead_budget : String
  lead_location : String
  lead_size : String
  lead_name : String
  awaiting_followup_response : Bool
  last_viewed_property : String
  tenant_whatsapp : String
  tenant_bot_name : String
  tenant_company_name : String
  tenant_property_types : String
  tenant_id : String
deriving DecidableEq, Repr

/-- A value stored in `updateFields`: the source stores strings, numbers
(`Selected Property Number`, `Selected Time Slot`) and booleans
(`AwaitingFollowUpResponse`). -/
inductive FieldVal where
  | s (v : String)
  | n (v : Int)
  | b (v : Bool)
deriving DecidableEq, Repr

/-- The `agentNotification` payload of the follow-up handler (source
lines 41-47). -/
structure AgentNote where
  message : String
  sendTo : String
  leadName : String
  leadPhone : String
  propertyName : String
deriving DecidableEq, Repr

/-- The response descriptor (source lines 77-91).  Keys a JavaScript return
object omits are modelled by the corresponding initial values of the response
object (`response0`). -/
structure Response where
  action : String
  updateFields : List (String × FieldVal)
  replyMessage : String
  createLead : Bool
  searchProperties : Bool
  bookingRequest : Bool
  interest : String
  bedrooms : Int
  requestedBedrooms : Int
  propertyNumber : Int
  location : String
  selectedTime : FieldVal
  plotSize : String
  agentNotification : Option AgentNote
deriving DecidableEq, Repr

/-- The initial response object (source lines 77-91). -/
def response0 : Response :=
  { action := "", updateFields := [], replyMessage := "", createLead := false,
    searchProperties := false, bookingRequest := false, interest := "",
    bedrooms := 0, requestedBedrooms := 0, propertyNumber := 0, location := "",
    selectedTime := FieldVal.s "", plotSize := "", agentNotification := none }

def joinSepS (sep : String) : List String → String
  | [] => ""
  | [x] => x
  | x :: xs => x ++ sep ++ joinSepS sep xs

def mapIdxFrom {α β : Type} (f : Nat → α → β) : Nat → List α → List β
  | _, [] => []
  | i, a :: as => f i a :: mapIdxFrom f (i + 1) as

/-- `formatOptions` (source lines 98-103). -/
def formatOptions (types : String) : String :=
  joinSepS "\n" (mapIdxFrom
    (fun i t => String.mk (natReprL (i + 1)) ++ "️⃣ " ++ jsTrim (String.mk t))
    0 (splitOnCharL ',' types.data))

/-! ## The router, stage by stage (enhanced variant, source lines 3-671) -/

/-- Follow-up response handler, reached when the lead exists, the
awaiting-follow-up flag is set and the message is `"1"` or `"2"` (source
lines 21-61). -/
def followupResponse (input : Input) (message : String) : Response :=
  let leadName := jsOrS input.lead_name "there"
  let leadPhone := input.«from»
  let tenantWhatsApp := jsOrS input.tenant_whatsapp ""
  let lastViewedProperty := jsOrS input.last_viewed_property "a property"
  if message = "1" then
    { response0 with
      action := "followup_interested",
      updateFields := [("Status", FieldVal.s "Hot Lead"),
        ("Conversation Stage", FieldVal.s "interested_after_viewing"),
        ("AwaitingFollowUpResponse", FieldVal.b false)],
      replyMessage := "Great! 🎉\n\nOur agent will contact you shortly to discuss next steps!\n\nReply HI anytime to search for more properties.",
      agentNotification := some
        { message := "🔥 *HOT LEAD ALERT!*\n\n" ++ leadName ++ " is INTERESTED after viewing!\n\nProperty: " ++ lastViewedProperty ++ "\n\n📞 Contact them ASAP: " ++ leadPhone ++ "\n\nStrike while the iron is hot! 🎯",
          sendTo := tenantWhatsApp, leadName := leadName,
          leadPhone := leadPhone, propertyName := lastViewedProperty } }
  else
    { response0 with
      action := "followup_not_interested",
      updateFields := [("Status", FieldVal.s "Not Interested"),
        ("Conversation Stage", FieldVal.s "not_interested_after_viewing"),
        ("AwaitingFollowUpResponse", FieldVal.b false)],
      replyMessage := "Thank you for your feedback! 🙏\n\nIf you change your mind, just reply HI anytime.\n\nWe're always here to help! 🏡" }

/-- The intent-detection loop over the configured property types (source
lines 116-121): first configured type whose lower-cased name occurs in the
lower-cased first message. -/
def detectType (lowerMsg : String) : List String → Option String
  | [] => none
  | t :: ts => if jsIncludes lowerMsg (jsToLower t) then some t else detectType lowerMsg ts

/-- The keyword fallbacks of intent detection (source lines 123-136). -/
def detectedTypeOf (typesList : List String) (lowerMsg : String) : Option String :=
  let d1 := detectType lowerMsg typesList
  let d2 := match d1 with
    | some t => some t
    | none =>
      if jsIncludes lowerMsg "buy" || jsIncludes lowerMsg "purchase" || jsIncludes lowerMsg "invest"
      then typesList.find? (fun t => jsIncludes (jsToLower t) "buy") else none
  let d3 := match d2 with
    | some t => some t
    | none =>
      if jsIncludes lowerMsg "rent" || jsIncludes lowerMsg "lease"
      then typesList.find? (fun t => jsIncludes (jsToLower t) "rent") else none
  match d3 with
  | some t => some t
  | none =>
    if jsIncludes lowerMsg "land" || jsIncludes lowerMsg "plot" || jsIncludes lowerMsg "acre"
    then typesList.find? (fun t => jsIncludes (jsToLower t) "land") else none

/-- The configured types, split on commas and trimmed (source line 114). -/
def typesListOf (tenantTypes : String) : List String :=
  (splitOnCharL ',' tenantTypes.data).map (fun t => jsTrim (String.mk t))

/-- New-user branch (source lines 108-187). -/
def newUserResponse (input : Input) (originalMessage : String) : Response :=
  let lowerMsg := jsToLower originalMessage
  let botName := jsOrS input.tenant_bot_name "PropertyBot"
  let companyName := jsOrS input.tenant_company_name "our company"
  let tenantTypes := jsOrS input.tenant_property_types "Buy, Rent"
  let typesList := typesListOf tenantTypes
  match detectedTypeOf typesList lowerMsg with
  | some detectedType =>
    { response0 with
      action := "create", createLead := true, interest := detectedType,
      updateFields := [("Interest", FieldVal.s detectedType),
        ("Conversation Stage", FieldVal.s "asked_name"),
        ("Status", FieldVal.s "New"), ("Phone", FieldVal.s input.«from»),
        ("Tenant", FieldVal.s input.tenant_id)],
      replyMessage := "Hi! Welcome to " ++ companyName ++ " 👋\n\nI see you're interested in " ++ detectedType ++ ". Great choice!\n\nWhat's your name?\n\n(Just type your name, e.g., Peter or Mary Jane)" }
  | none =>
    { response0 with
      action := "create", createLead := true,
      updateFields := [("Conversation Stage", FieldVal.s "asked_buy_or_rent"),
        ("Status", FieldVal.s "New"), ("Phone", FieldVal.s input.«from»),
        ("Tenant", FieldVal.s input.tenant_id)],
      replyMessage := "Hi! Welcome to " ++ companyName ++ " 👋\n\nI'm " ++ botName ++ ", your property assistant.\n\nWhat are you looking for?\n\n" ++ formatOptions tenantTypes ++ "\n\nReply with the name or number (e.g., Buy or 1)." }

/-- Greeting restart branch (source lines 192-212). -/
def greetingResponse (input : Input) : Response :=
  let botName := jsOrS input.tenant_bot_name "PropertyBot"
  let companyName := jsOrS input.tenant_company_name "our company"
  let tenantTypes := jsOrS input.tenant_property_types "Buy, Rent"
  { response0 with
    action := "update",
    updateFields := [("Conversation Stage", FieldVal.s "asked_buy_or_rent")],
    replyMessage := "Hi! Welcome back to " ++ companyName ++ " 👋\n\nI'm " ++ botName ++ ", your property assistant.\n\nWhat are you looking for?\n\n" ++ formatOptions tenantTypes ++ "\n\nReply with the name or number (e.g., Rent or 2)." }

/-- The number-and-name mapping of stage 1 (source lines 221-225), in
insertion order. -/
def buildTypeMapping : Nat → List String → List (String × String)
  | _, [] => []
  | i, t :: ts =>
    (String.mk (natReprL (i + 1)), t) :: (jsToLower t, t) :: buildTypeMapping (i + 1) ts

/-- JavaScript object lookup after sequential assignments: the last assignment
to a key wins. -/
def lookupLast (m : List (String × String)) (k : String) : Option String :=
  (m.reverse.find? (fun p => p.1 == k)).map (fun p => p.2)

/-- Stage `asked_buy_or_rent` (source lines 217-252). -/
def stageBuyOrRent (input : Input) (message : String) : Response :=
  let tenantTypes := jsOrS input.tenant_property_types "Buy, Rent"
  let typesList := typesListOf tenantTypes
  let selectedType := lookupLast (buildTypeMapping 0 typesList) message
  match selectedType with
  | none =>
    { response0 with
      action := "invalid",
      replyMessage := "Please choose from the options below:\n\n" ++ formatOptions tenantTypes ++ "\n\nReply with the name or number." }
  | some t =>
    if t = "" then
      { response0 with
      action := "invalid",
        replyMessage := "Please choose from the options below:\n\n" ++ formatOptions tenantTypes ++ "\n\nReply with the name or number." }
    else
      { response0 with
      action := "update",
        updateFields := [("Interest", FieldVal.s t),
          ("Conversation Stage", FieldVal.s "asked_name")],
        replyMessage := "Great choice! 👍\n\nWhat's your name?\n\n(Just type your name, e.g., Peter or Mary Jane)" }

/-- Name extraction (source lines 261-271): phrasal patterns first, then the
whole message when it looks like a bare name, else the empty string. -/
def extractName (message : String) : String :=
  match capAfterL "my name is ".data message.data with
  | some c => String.mk c
  | none =>
  match capAfterL "i am ".data message.data with
  | some c => String.mk c
  | none =>
  match capAfterL "i'm ".data message.data with
  | some c => String.mk c
  | none =>
  match capAfterL "this is ".data message.data with
  | some c => String.mk c
  | none => if nameShape message.data then message else ""

def capWordL : List Char → List Char
  | [] => []
  | c :: cs => upperChar c :: cs.map lowerChar

/-- Name cleaning (source lines 285-289): trim, drop characters that are
neither letters nor whitespace, split on whitespace runs, capitalize each
word, join with single spaces. -/
def cleanName (name : String) : String :=
  joinSepS " "
    (((splitWsA ((jsTrim name).data.filter (fun c => isAlphaC c || isJsSpace c))).map
      (fun w => String.mk (capWordL w))))

/-- Stage `asked_name` (source lines 257-308). -/
def stageAskedName (message : String) : Response :=
  let name := extractName message
  if name = "" ∨ name.length < 2 then
    { response0 with
      action := "invalid",
      replyMessage := "I didn't quite catch that.\n\nPlease enter your name (e.g., John or Mary Jane).\n\nJust your name is enough! 😊" }
  else
    let cleaned := cleanName name
    { response0 with
      action := "update",
      updateFields := [("Name", FieldVal.s cleaned),
        ("Conversation Stage", FieldVal.s "asked_budget")],
      replyMessage := "Nice to meet you, " ++ cleaned ++ "! 👋\n\nWhat's your budget?\n\nExamples:\n• 500000\n• 5M \n• 500K \n\nJust type the amount!" }

/-- Budget extraction (source lines 314-325): phrasal patterns first, else
the whole message. -/
def extractBudgetStr (message : String) : String :=
  match capAfterL "budget is ".data message.data with
  | some c => String.mk c
  | none =>
  match capAfterL "i have ".data message.data with
  | some c => String.mk c
  | none =>
  match capAfterL "around ".data message.data with
  | some c => String.mk c
  | none =>
  match capAfterL "about ".data message.data with
  | some c => String.mk c
  | none => message

/-- Budget parsing after validation (source lines 344-352): drop commas,
`M` multiplies by 1000000, `K` by 1000. -/
def budgetValue (cleaned : List Char) : JNum :=
  let noCommas := cleaned.filter (fun c => c ≠ ',')
  if noCommas.contains 'M' then jnumMulPow10 (jsParseFloat noCommas) 6
  else if noCommas.contains 'K' then jnumMulPow10 (jsParseFloat noCommas) 3
  else jsParseFloat noCommas

/-- Stage `asked_budget` (source lines 313-367). -/
def stageAskedBudget (input : Input) (message : String) : Response :=
  let cleaned := cleanBudget (extractBudgetStr message).data
  if !budgetShape cleaned then
    { response0 with
      action := "invalid",
      replyMessage := "I didn't understand that budget.\n\nPlease enter a valid amount:\n• 5000000\n• 5M (5 million)\n• 500K (500 thousand)\n\nJust the number is fine!" }
  else
    { response0 with
      action := "fetch_locations",
      updateFields := [("Budget", FieldVal.s (jnumToString (budgetValue cleaned))),
        ("Conversation Stage", FieldVal.s "fetching_locations")],
      interest := jsOrS input.lead_interest input.lead_interest,
      replyMessage := "Great! 💰\n\nLet me check available areas... 🔍" }

/-- Location extraction (source lines 374-381). -/
def extractLocation (message : String) : String :=
  match capAfterL "in ".data message.data with
  | some c => String.mk c
  | none =>
  match capAfterL "at ".data message.data with
  | some c => String.mk c
  | none => message

/-- Word-by-word capitalization (source lines 393-396). -/
def capitalizeWords (s : String) : String :=
  joinSepS " " ((splitWsA (jsTrim s).data).map (fun w => String.mk (capWordL w)))

/-- Stage `asked_location` (source lines 372-412). -/
def stageAskedLocation (input : Input) (message : String) : Response :=
  let location := extractLocation message
  if !hasTwoAlphaL location.data then
    { response0 with
      action := "invalid",
      replyMessage := "Please choose a location from the list above.\n\nJust type the area name (e.g., Westlands or Karen)." }
  else
    let loc := capitalizeWords location
    { response0 with
      action := "fetch_sizes",
      updateFields := [("Location", FieldVal.s loc),
        ("Conversation Stage", FieldVal.s "fetching_sizes")],
      interest := jsOrS input.lead_interest input.lead_interest,
      location := loc,
      replyMessage := "Perfect! 📍\n\nChecking what's available in " ++ loc ++ "... 🔍" }

/-- Bedrooms extraction (source lines 419-428). -/
def extractBedroomsStr (message : String) : String :=
  match capNumBed message.data with
  | some ds => String.mk ds
  | none =>
  match capIWantNeedNum message.data with
  | some ds => String.mk ds
  | none => message

/-- Stage `asked_size` (source lines 417-470). -/
def stageAskedSize (input : Input) (message : String) : Response :=
  match jsParseInt (extractBedroomsStr message).data with
  | none =>
    { response0 with
      action := "invalid",
      replyMessage := "Please enter the number of bedrooms you need.\n\nExamples: 1, 2, 3, 4, etc.\n\nJust the number!" }
  | some bedrooms =>
    if bedrooms < 1 ∨ bedrooms > 20 then
      { response0 with
      action := "invalid",
        replyMessage := "Please enter the number of bedrooms you need.\n\nExamples: 1, 2, 3, 4, etc.\n\nJust the number!" }
    else
      let finalInterest := jsOrS (jsOrS input.lead_interest input.lead_interest) "Not specified"
      let finalBudget := jsOrS (jsOrS input.lead_budget input.lead_budget) "Not specified"
      let finalLocation := jsOrS (jsOrS input.lead_location input.lead_location) "Not specified"
      let bedStr := String.mk (natReprL bedrooms.toNat)
      { response0 with
      action := "update",
        updateFields := [("Size", FieldVal.s (bedStr ++ " bedroom")),
          ("Conversation Stage", FieldVal.s "completed"),
          ("Status", FieldVal.s "Contacted")],
        interest := finalInterest, bedrooms := bedrooms,
        requestedBedrooms := bedrooms, location := finalLocation,
        searchProperties := true,
        replyMessage := "✅ Got it! Let me find the best matches for you...\n\n📋 Your preferences:\n• Interest: " ++ finalInterest ++ "\n• Budget: KES " ++ finalBudget ++ "\n• Location: " ++ finalLocation ++ "\n• Bedrooms: " ++ bedStr ++ "\n\nSearching properties... 🔍" }

/-- Plot-size extraction (source lines 477-485): the trimmed original message,
overridden by the capture of `i (want|need) (.+)` only when no plot-size
shape occurs in the message. -/
def extractPlotSize (message originalMessage : String) : String :=
  if hasPlotPattern message.data then jsTrim originalMessage
  else
    match capIWantNeedAny message.data with
    | some c => String.mk c
    | none => jsTrim originalMessage

/-- Stage `asked_land_size` (source lines 475-527). -/
def stageAskedLandSize (input : Input) (message originalMessage : String) : Response :=
  let plotSize := extractPlotSize message originalMessage
  if plotSize.length < 2 then
    { response0 with
      action := "invalid",
      replyMessage := "Please enter the plot size you're interested in.\n\nExamples:\n• 50x100\n• 1/4 Acre\n• 1/8\n\nChoose from the options above!" }
  else
    let finalInterest := jsOrS (jsOrS input.lead_interest input.lead_interest) "Land"
    let finalBudget := jsOrS (jsOrS input.lead_budget input.lead_budget) "Not specified"
    let finalLocation := jsOrS (jsOrS input.lead_location input.lead_location) "Not specified"
    { response0 with
      action := "update",
      updateFields := [("Size", FieldVal.s plotSize),
        ("Conversation Stage", FieldVal.s "completed"),
        ("Status", FieldVal.s "Contacted")],
      interest := finalInterest, location := finalLocation,
      plotSize := plotSize, searchProperties := true,
      replyMessage := "✅ Got it! Let me find the best land matches for you...\n\n📋 Your preferences:\n• Interest: " ++ finalInterest ++ "\n• Budget: KES " ++ finalBudget ++ "\n• Location: " ++ finalLocation ++ "\n• Plot Size: " ++ plotSize ++ "\n\nSearching properties... 🔍" }

/-- Property-number extraction (source lines 534-542). -/
def extractPropertyNumber (message : String) : Option Nat :=
  match capLitWsNum "property".data message.data with
  | some ds => some (digitsToNat ds)
  | none =>
    if allDigitsL message.data then some (digitsToNat message.data)
    else
      match capLitWsNum "number".data message.data with
      | some ds => some (digitsToNat ds)
      | none => none

/-- Stage `completed` (source lines 532-561): `if (!propertyNumber)` treats
both a missing match and the number zero as invalid. -/
def stageCompleted (message : String) : Response :=
  match extractPropertyNumber message with
  | none =>
    { response0 with
      action := "invalid",
      replyMessage := "Please reply with the property number you want to view.\n\nExample: Property1 or just 1" }
  | some n =>
    if n = 0 then
      { response0 with
      action := "invalid",
        replyMessage := "Please reply with the property number you want to view.\n\nExample: Property1 or just 1" }
    else
      { response0 with
      action := "booking",
        updateFields := [("Conversation Stage", FieldVal.s "awaiting_time_slot"),
          ("Selected Property Number", FieldVal.n n)],
        propertyNumber := n,
        replyMessage := "Great choice! 🎉\n\nLet me check availability for you... ⏳" }

/-- Slot-number extraction (source lines 568-576). -/
def extractSlotNumber (message : String) : Option Nat :=
  match capLitWsNum "slot".data message.data with
  | some ds => some (digitsToNat ds)
  | none =>
    if allDigitsL message.data then some (digitsToNat message.data)
    else
      match capLitWsNum "number".data message.data with
      | some ds => some (digitsToNat ds)
      | none => none

/-- Stage `awaiting_time_slot` (source lines 566-596): `if (!slotNumber)`
treats both a missing match and the number zero as invalid. -/
def stageAwaitingTimeSlot (message : String) : Response :=
  match extractSlotNumber message with
  | none =>
    { response0 with
      action := "invalid",
      replyMessage := "Please reply with the slot number.\n\nExample: 3 or Slot 3" }
  | some n =>
    if n = 0 then
      { response0 with
      action := "invalid",
        replyMessage := "Please reply with the slot number.\n\nExample: 3 or Slot 3" }
    else
      { response0 with
      action := "create_booking",
        updateFields := [("Conversation Stage", FieldVal.s "booking_confirmed"),
          ("Selected Time Slot", FieldVal.n n)],
        selectedTime := FieldVal.n n, bookingRequest := true,
        replyMessage := "Creating your booking... ✅" }

/-- Cancel branch (source lines 601-609). -/
def cancelResponse : Response :=
  { response0 with
    action := "cancel_booking",
    updateFields := [("Conversation Stage", FieldVal.s "booking_cancelled"),
      ("Status", FieldVal.s "Cancelled")],
    replyMessage := "Cancelling your booking... ⏳" }

/-- `getHelpMessage` (source lines 618-662). -/
def getHelpMessage (currentStage : String) : String :=
  if currentStage = "asked_buy_or_rent" then
    "Please choose from the options:\n\n1️⃣ Buy\n2️⃣ Rent\n3️⃣ Land\n\nReply with the name or number."
  else if currentStage = "asked_name" then
    "Please enter your name.\n\nJust your first name or full name (e.g., John or Mary Jane)."
  else if currentStage = "asked_budget" then
    "Please enter your budget.\n\nExamples:\n• 5000000\n• 5M (5 million)\n• 500K (500 thousand)"
  else if currentStage = "asked_location" then
    "Please choose a location from the list above."
  else if currentStage = "asked_size" then
    "Please enter the number of bedrooms (e.g., 1, 2, 3)."
  else if currentStage = "asked_land_size" then
    "Please enter the plot size.\n\nExamples: 50x100, 1/4 Acre, 1/8"
  else if currentStage = "awaiting_time_slot" then
    "Please reply with the slot number (e.g., 1, 2, 3)."
  else if currentStage = "booking_confirmed" then
    "Your viewing is confirmed! Reply CANCEL to cancel, or HI to start over."
  else "Hi! Send 'HI' to start finding your perfect property! 🏡"

/-- Catch-all branch (source lines 614-616). -/
def defaultResponse (stage : String) : Response :=
  { response0 with
      action := "invalid", replyMessage := getHelpMessage stage }

/-- The try-block body of `handleMessage` (source lines 4-662), after the
message field has been coerced to a string. -/
def handleMessageCore (input : Input) (originalMessage : String) : Response :=
  let message := jsTrim (jsToLower originalMessage)
  let leadExists := input.lead_id ≠ ""
  let stage := input.lead_stage
  if leadExists ∧ input.awaiting_followup_response = true ∧ (message = "1" ∨ message = "2") then
    followupResponse input message
  else if ¬leadExists then newUserResponse input originalMessage
  else if isGreeting message then greetingResponse input
  else if stage = "asked_buy_or_rent" then stageBuyOrRent input message
  else if stage = "asked_name" then stageAskedName message
  else if stage = "asked_budget" then stageAskedBudget input message
  else if stage = "asked_location" then stageAskedLocation input message
  else if stage = "asked_size" then stageAskedSize input message
  else if stage = "asked_land_size" then stageAskedLandSize input message originalMessage
  else if stage = "completed" then stageCompleted message
  else if stage = "awaiting_time_slot" then stageAwaitingTimeSlot message
  else if stage = "booking_confirmed" ∧ jsIncludes message "cancel" then cancelResponse
  else defaultResponse stage

/-- The generic error descriptor of the catch block (source lines 664-670). -/
def errorResponse : Response :=
  { response0 with
    action := "error",
    replyMessage := "Oops! Something went wrong. Please try again or send HI to restart." }

/-- `handleMessage` (source lines 3-671): the try-block body, with any fault
caught and converted to the generic error descriptor. -/
def handleMessage (input : Input) : Response :=
  match origMessageE input.message with
  | Except.error _ => errorResponse
  | Except.ok orig => handleMessageCore input orig

/-! ## The slot-calculation endpoint `/api/available-slots`
(`src/server.js`, lines 161-233)

Times are integer milliseconds in a fixed-offset local timezone (the relevant
timezone, Africa/Nairobi, has no DST, so local time is a constant shift of
UTC and all `Date` arithmetic of the source is affine).  `day.getDay()` is
`(floor(t / dayMs) + 4) mod 7` because the epoch fell on a Thursday. -/

def dayMs : Int := 86400000

def hourMs : Int := 3600000

/-- A booked event, after the `new Date(e.start)` parsing of source
lines 170-175. -/
structure BookedEvent where
  propertyId : String
  start : Int
  «end» : Int
deriving DecidableEq, Repr

structure Slot where
  start : Int
  «end» : Int
deriving DecidableEq, Repr

/-- `overlaps` (source lines 178-180). -/
def slotOverlaps (booked : List (Int × Int)) (s e : Int) : Bool :=
  booked.any (fun b => s < b.2 && e > b.1)

/-- Weekday of the local day containing `t` (`Date.prototype.getDay`): 0 is
Sunday, 6 is Saturday. -/
def weekday (t : Int) : Int := Int.emod (Int.fdiv t dayMs + 4) 7

/-- The inner-loop body of the slot generation (source lines 191-212): a
candidate hour `h` of local day `day` is appended when fewer than 5 slots
have been collected, the slot starts after the one-hour buffer, and it
clashes with no booked event. -/
def slotStep (booked : List (Int × Int)) (minSlotTime day : Int)
    (acc2 : List Slot) (h : Int) : List Slot :=
  if acc2.length < 5 then
    let slotStart := day + h * hourMs
    let slotEnd := slotStart + hourMs
    if slotStart ≤ minSlotTime then acc2
    else if slotOverlaps booked slotStart slotEnd then acc2
    else acc2 ++ [⟨slotStart, slotEnd⟩]
  else acc2

/-- The slot-generation loop of `/api/available-slots` (source lines 163-213):
working hours `[workStart, workEnd)` on the next `daysAhead` non-weekend local
days, one-hour slots, at most 5, each starting after a one-hour buffer from
`now` and clashing with no booked event of the same property.  The JavaScript
loop conditions re-test `freeSlots.length < 5` before every iteration; since
iterations only append, guarding each candidate (`slotStep`) is equivalent. -/
def availableSlots (propertyId : String) (bookedEvents : List BookedEvent)
    (workStart workEnd : Int) (daysAhead : Nat) (now : Int) : List Slot :=
  let minSlotTime := now + hourMs
  let booked := (bookedEvents.filter (fun e => e.propertyId == propertyId)).map
    (fun e => (e.start, e.«end»))
  let hours := (List.range (workEnd - workStart).toNat).map (fun (j : Nat) => workStart + (j : Int))
  (List.range daysAhead).foldl (fun acc (i : Nat) =>
    let day := (Int.fdiv now dayMs + (i : Int)) * dayMs
    if weekday day = 0 ∨ weekday day = 6 then acc
    else hours.foldl (slotStep booked minSlotTime day) acc) []

/-- The property C10 asserts of every returned slot: exactly one hour long,
starting strictly more than one hour after `now`, on a whole hour of a
non-weekend local day inside the working window, overlapping no booked event
of the requested property. -/
def goodSlot (propertyId : String) (events : List BookedEvent)
    (workStart workEnd now : Int) (s : Slot) : Prop :=
  s.«end» = s.start + hourMs ∧
  s.start > now + hourMs ∧
  (∃ d h, (∃ k : Int, d = k * dayMs) ∧ weekday d ≠ 0 ∧ weekday d ≠ 6 ∧
    workStart ≤ h ∧ h < workEnd ∧ s.start = d + h * hourMs) ∧
  ∀ e ∈ events, e.propertyId = propertyId →
    ¬ (s.start < e.«end» ∧ s.«end» > e.start)

/-! ## Concrete inputs and claim vocabulary -/

/-- A convenient concrete input record; claims instantiate it with the fields
they constrain. -/
def baseInput : Input :=
  { message := JSVal.str "", «from» := "+254700111222", lead_id := "", lead_stage := "",
    lead_interest := "", lead_budget := "", lead_location := "", lead_size := "",
    lead_name := "", awaiting_followup_response := false, last_viewed_property := "",
    tenant_whatsapp := "", tenant_bot_name := "", tenant_company_name := "",
    tenant_property_types := "", tenant_id := "tenant1" }

/-- Input for the C7 witness: a fully-populated lead at stage `completed`
greeting with `" Hi "`. -/
def inputC7 : Input :=
  { baseInput with
    message := JSVal.str " Hi ", lead_id := "L1", lead_stage := "completed",
    lead_interest := "Buy", lead_budget := "5000000", lead_location := "Karen",
    lead_size := "3 bedroom" }

/-- Input for the C4 witness, message `"1"`. -/
def inputC4a : Input :=
  { baseInput with
    message := JSVal.str "1", lead_id := "L1", lead_stage := "completed",
    lead_name := "Peter", awaiting_followup_response := true,
    last_viewed_property := "Sunset Villa", tenant_whatsapp := "+254711000111" }

/-- Input for the C5 witness, message `"25"`. -/
def inputC5 : Input :=
  { baseInput with
    message := JSVal.str "25", lead_id := "L1", lead_stage := "asked_size",
    lead_interest := "Buy", lead_budget := "5000000", lead_location := "Karen" }

/-- Input for the C9 witness, message `"property 0"` at stage `completed`. -/
def inputC9 : Input :=
  { baseInput with
    message := JSVal.str "property 0", lead_id := "L1", lead_stage := "completed" }

/-- Input for the C3 witness: a lead at stage `asked_budget` sending a message
that cleans to the empty string and so fails the budget shape. -/
def inputC3 : Input :=
  { baseInput with
    message := JSVal.str "plenty!", lead_id := "L1", lead_stage := "asked_budget" }

/-- Input refuting C6 as stated: first message `"buy or rent"` with
configured types `"Buy, Rent"`. -/
def inputC6ce : Input :=
  { baseInput with
    message := JSVal.str "buy or rent", tenant_property_types := "Buy, Rent" }

/-- Input for the C6 witness: first message `"looking to rent"` with
configured types `"Buy, Rent"`. -/
def inputC6 : Input :=
  { baseInput with
    message := JSVal.str "looking to rent", tenant_property_types := "Buy, Rent" }

/-- The action tags the router can emit (section 6 of the specification). -/
def routerActions : List String :=
  ["create", "update", "invalid", "fetch_locations", "fetch_sizes", "booking",
   "create_booking", "cancel_booking", "followup_interested",
   "followup_not_interested", "error"]

/-- Position of a stage in the defined forward sequence (section 4 of the
specification); `asked_size` and `asked_land_size` share a position, and
stages outside the sequence have none. -/
def stageIdx (s : String) : Option Nat :=
  if s = "asked_buy_or_rent" then some 0
  else if s = "asked_name" then some 1
  else if s = "asked_budget" then some 2
  else if s = "fetching_locations" then some 3
  else if s = "asked_location" then some 4
  else if s = "fetching_sizes" then some 5
  else if s = "asked_size" then some 6
  else if s = "asked_land_size" then some 6
  else if s = "completed" then some 7
  else if s = "awaiting_time_slot" then some 8
  else if s = "booking_confirmed" then some 9
  else if s = "booking_cancelled" then some 10
  else none

/-- Input for the C2 witness: an unparseable budget message. -/
def inputC2 : Input :=
  { baseInput with
    message := JSVal.str "a lot of money", lead_id := "L1", lead_stage := "asked_budget" }

/-- Input for the C1 witness: the message field holds the number 5, on which
the source's `originalMessage.toLowerCase()` throws. -/
def inputC1 : Input := { baseInput with message := JSVal.num 5 }

/-- Input refuting C8 as stated: a lead at stage `completed` with the
awaiting-follow-up flag set, answering `"1"`. -/
def inputC8ce : Input :=
  { baseInput with
    message := JSVal.str "1", lead_id := "L1", lead_stage := "completed",
    awaiting_followup_response := true }

/-- Input for the C8 witness: a lead at stage `asked_budget` sending a valid
budget, a forward transition to `fetching_locations`. -/
def inputC8 : Input :=
  { baseInput with
    message := JSVal.str "5M", lead_id := "L1", lead_stage := "asked_budget" }

/-! ## Infrastructure lemmas -/

theorem origMessageE_str (m : String) : origMessageE (JSVal.str m) = Except.ok m := by
  by_cases h : m = "" <;> simp [origMessageE, jsValTruthy, h]

theorem handleMessage_str (i : Input) (m : String) (h : i.message = JSVal.str m) :
    handleMessage i = handleMessageCore i m := by
  rw [handleMessage, h, origMessageE_str]

/-! ## Claims -/

/-- C7: for every existing lead at any stage, the message `"hi"` produces an
update whose `updateFields` contains exactly one entry, setting
`Conversation Stage` to `asked_buy_or_rent`; no other lead field appears in
`updateFields`. -/
theorem C7_greeting_resets_stage_only (i : Input) (m : String)
    (hm : i.message = JSVal.str m)
    (hlead : i.lead_id ≠ "")
    (hmsg : jsTrim (jsToLower m) = "hi") :
    (handleMessage i).action = "update" ∧
    (handleMessage i).updateFields =
      [("Conversation Stage", FieldVal.s "asked_buy_or_rent")] := by
  rw [handleMessage_str i m hm]
  simp [handleMessageCore, hmsg, hlead, isGreeting, greetingResponse, response0]

/-- C7 witness: the concrete lead of `inputC7`. -/
theorem C7_greeting_resets_stage_only_witness :
    (handleMessage inputC7).action = "update" ∧
    (handleMessage inputC7).updateFields =
      [("Conversation Stage", FieldVal.s "asked_buy_or_rent")] :=
  C7_greeting_resets_stage_only _ " Hi " rfl (by decide) (by decide)

/-- C4: for every existing lead with `awaiting_followup_response` set, the
message `"1"` produces a response whose `updateFields` sets `Status` to
`"Hot Lead"`, `Conversation Stage` to `interested_after_viewing` and
`AwaitingFollowUpResponse` to `false`, with a present, non-empty
`agentNotification`; the message `"2"` instead marks the lead not interested,
with a reply only (no agent notification). -/
theorem C4_followup_responses (i : Input) (m : String)
    (hm : i.message = JSVal.str m)
    (hlead : i.lead_id ≠ "")
    (hfu : i.awaiting_followup_response = true) :
    (jsTrim (jsToLower m) = "1" →
      (handleMessage i).action = "followup_interested" ∧
      (handleMessage i).updateFields =
        [("Status", FieldVal.s "Hot Lead"),
         ("Conversation Stage", FieldVal.s "interested_after_viewing"),
         ("AwaitingFollowUpResponse", FieldVal.b false)] ∧
      ∃ note, (handleMessage i).agentNotification = some note ∧ note.message ≠ "") ∧
    (jsTrim (jsToLower m) = "2" →
      (handleMessage i).action = "followup_not_interested" ∧
      (handleMessage i).updateFields =
        [("Status", FieldVal.s "Not Interested"),
         ("Conversation Stage", FieldVal.s "not_interested_after_viewing"),
         ("AwaitingFollowUpResponse", FieldVal.b false)] ∧
      (handleMessage i).agentNotification = none ∧
      (handleMessage i).replyMessage ≠ "") := by
  rw [handleMessage_str i m hm]
  constructor
  · intro hmsg
    simp only [handleMessageCore, hmsg, hlead, hfu]
    simp [followupResponse, response0, hlead]
    intro h
    have h2 := congrArg String.data h
    simp [String.data_append] at h2
  · intro hmsg
    simp only [handleMessageCore, hmsg, hlead, hfu]
    simp [followupResponse, response0, hlead]

/-- C4 witness: the concrete awaiting-follow-up lead of `inputC4a` answering
`"1"`. -/
theorem C4_followup_responses_witness :
    (handleMessage inputC4a).action = "followup_interested" ∧
    (handleMessage inputC4a).updateFields =
      [("Status", FieldVal.s "Hot Lead"),
       ("Conversation Stage", FieldVal.s "interested_after_viewing"),
       ("AwaitingFollowUpResponse", FieldVal.b false)] ∧
    ∃ note, (handleMessage inputC4a).agentNotification = some note ∧ note.message ≠ "" :=
  (C4_followup_responses inputC4a "1" rfl (by decide) rfl).1 (by decide)

/-- C5: at stage `asked_size`, a bedroom count outside 1..20 is rejected with
no field update (`"25"`), while `"3 bed"` extracts 3 bedrooms, sets `Size` to
`"3 bedroom"`, advances the stage to `completed` and sets the
search-properties flag. -/
theorem C5_bedrooms_range :
    (∀ i : Input, i.message = JSVal.str "25" → i.lead_id ≠ "" →
      i.lead_stage = "asked_size" →
      (handleMessage i).action = "invalid" ∧ (handleMessage i).updateFields = []) ∧
    (∀ i : Input, i.message = JSVal.str "3 bed" → i.lead_id ≠ "" →
      i.lead_stage = "asked_size" →
      (handleMessage i).action = "update" ∧
      (handleMessage i).updateFields.lookup "Size" = some (FieldVal.s "3 bedroom") ∧
      (handleMessage i).updateFields.lookup "Conversation Stage" =
        some (FieldVal.s "completed") ∧
      (handleMessage i).bedrooms = 3 ∧
      (handleMessage i).searchProperties = true) := by
  constructor
  · intro i hm hlead hst
    rw [handleMessage_str i "25" hm]
    have hn : jsTrim (jsToLower "25") = "25" := by decide
    have hp : jsParseInt (extractBedroomsStr "25").data = some 25 := by decide
    simp only [handleMessageCore, hn, hst]
    simp [hlead, isGreeting, stageAskedSize, hp, response0]
  · intro i hm hlead hst
    rw [handleMessage_str i "3 bed" hm]
    have hn : jsTrim (jsToLower "3 bed") = "3 bed" := by decide
    have hp : jsParseInt (extractBedroomsStr "3 bed").data = some 3 := by decide
    simp only [handleMessageCore, hn, hst]
    simp [hlead, isGreeting, stageAskedSize, hp, response0, List.lookup]
    decide

/-- C5 witness: the concrete lead of `inputC5` answering `"25"`. -/
theorem C5_bedrooms_range_witness :
    (handleMessage inputC5).action = "invalid" ∧ (handleMessage inputC5).updateFields = [] :=
  C5_bedrooms_range.1 inputC5 rfl (by decide) rfl

/-- C9: at stage `completed` the messages `"0"` and `"property 0"`, and at
stage `awaiting_time_slot` the messages `"0"` and `"slot 0"`, are rejected
with action `"invalid"` and empty `updateFields`: a selection of number zero
is treated as no selection. -/
theorem C9_zero_selector_invalid :
    (∀ i : Input, i.message = JSVal.str "0" → i.lead_id ≠ "" →
      i.lead_stage = "completed" →
      (handleMessage i).action = "invalid" ∧ (handleMessage i).updateFields = []) ∧
    (∀ i : Input, i.message = JSVal.str "property 0" → i.lead_id ≠ "" →
      i.lead_stage = "completed" →
      (handleMessage i).action = "invalid" ∧ (handleMessage i).updateFields = []) ∧
    (∀ i : Input, i.message = JSVal.str "0" → i.lead_id ≠ "" →
      i.lead_stage = "awaiting_time_slot" →
      (handleMessage i).action = "invalid" ∧ (handleMessage i).updateFields = []) ∧
    (∀ i : Input, i.message = JSVal.str "slot 0" → i.lead_id ≠ "" →
      i.lead_stage = "awaiting_time_slot" →
      (handleMessage i).action = "invalid" ∧ (handleMessage i).updateFields = []) := by
  refine ⟨?_, ?_, ?_, ?_⟩
  · intro i hm hlead hst
    rw [handleMessage_str i "0" hm]
    have hn : jsTrim (jsToLower "0") = "0" := by decide
    have hp : extractPropertyNumber "0" = some 0 := by decide
    simp only [handleMessageCore, hn, hst]
    simp [hlead, isGreeting, stageCompleted, hp, response0]
  · intro i hm hlead hst
    rw [handleMessage_str i "property 0" hm]
    have hn : jsTrim (jsToLower "property 0") = "property 0" := by decide
    have hp : extractPropertyNumber "property 0" = some 0 := by decide
    simp only [handleMessageCore, hn, hst]
    simp [hlead, isGreeting, stageCompleted, hp, response0]
  · intro i hm hlead hst
    rw [handleMessage_str i "0" hm]
    have hn : jsTrim (jsToLower "0") = "0" := by decide
    have hp : extractSlotNumber "0" = some 0 := by decide
    simp only [handleMessageCore, hn, hst]
    simp [hlead, isGreeting, stageAwaitingTimeSlot, hp, response0]
  · intro i hm hlead hst
    rw [handleMessage_str i "slot 0" hm]
    have hn : jsTrim (jsToLower "slot 0") = "slot 0" := by decide
    have hp : extractSlotNumber "slot 0" = some 0 := by decide
    simp only [handleMessageCore, hn, hst]
    simp [hlead, isGreeting, stageAwaitingTimeSlot, hp, response0]

/-- C9 witness: the concrete lead of `inputC9` selecting property zero. -/
theorem C9_zero_selector_invalid_witness :
    (handleMessage inputC9).action = "invalid" ∧ (handleMessage inputC9).updateFields = [] :=
  C9_zero_selector_invalid.2.1 inputC9 rfl (by decide) rfl

/-- C3: at stage `asked_budget`, the message is first stripped to the
characters `[0-9.,mkMK]` (upper-cased), any string then failing
`^[\d.,]+[MK]?$` is rejected with action `"invalid"` and no field update, and
otherwise the amount is parsed with `M` multiplying by 1000000 and `K` by
1000: `"5M"` stores 5000000, `"500K"` stores 500000, `"1,200,000"` stores
1200000, and `"abc"` is invalid.  (The greeting restart, which precedes every
stage's validation, is excluded in the general rejection part.) -/
theorem C3_budget_parsing :
    (∀ (i : Input) (m : String), i.message = JSVal.str m → i.lead_id ≠ "" →
      i.lead_stage = "asked_budget" →
      isGreeting (jsTrim (jsToLower m)) = false →
      budgetShape (cleanBudget (extractBudgetStr (jsTrim (jsToLower m))).data) = false →
      (handleMessage i).action = "invalid" ∧ (handleMessage i).updateFields = []) ∧
    (∀ i : Input, i.message = JSVal.str "5M" → i.lead_id ≠ "" →
      i.lead_stage = "asked_budget" →
      (handleMessage i).action = "fetch_locations" ∧
      (handleMessage i).updateFields.lookup "Budget" = some (FieldVal.s "5000000") ∧
      (handleMessage i).updateFields.lookup "Conversation Stage" =
        some (FieldVal.s "fetching_locations")) ∧
    (∀ i : Input, i.message = JSVal.str "500K" → i.lead_id ≠ "" →
      i.lead_stage = "asked_budget" →
      (handleMessage i).updateFields.lookup "Budget" = some (FieldVal.s "500000")) ∧
    (∀ i : Input, i.message = JSVal.str "1,200,000" → i.lead_id ≠ "" →
      i.lead_stage = "asked_budget" →
      (handleMessage i).updateFields.lookup "Budget" = some (FieldVal.s "1200000")) ∧
    (∀ i : Input, i.message = JSVal.str "abc" → i.lead_id ≠ "" →
      i.lead_stage = "asked_budget" →
      (handleMessage i).action = "invalid" ∧ (handleMessage i).updateFields = []) := by
  refine ⟨?_, ?_, ?_, ?_, ?_⟩
  · intro i m hm hlead hst hg hshape
    rw [handleMessage_str i m hm]
    have h1 : ¬ (jsTrim (jsToLower m) = "1") := by
      intro h; rw [h] at hshape; exact absurd hshape (by decide)
    have h2 : ¬ (jsTrim (jsToLower m) = "2") := by
      intro h; rw [h] at hshape; exact absurd hshape (by decide)
    simp only [handleMessageCore, hst]
    simp [hlead, h1, h2, hg, stageAskedBudget, hshape, response0]
  · intro i hm hlead hst
    rw [handleMessage_str i "5M" hm]
    have hn : jsTrim (jsToLower "5M") = "5m" := by decide
    have hb : budgetShape (cleanBudget (extractBudgetStr "5m").data) = true := by decide
    have hv : jnumToString (budgetValue (cleanBudget (extractBudgetStr "5m").data)) =
        "5000000" := by decide
    simp only [handleMessageCore, hn, hst]
    simp [hlead, isGreeting, stageAskedBudget, hb, hv, response0, List.lookup]
  · intro i hm hlead hst
    rw [handleMessage_str i "500K" hm]
    have hn : jsTrim (jsToLower "500K") = "500k" := by decide
    have hb : budgetShape (cleanBudget (extractBudgetStr "500k").data) = true := by decide
    have hv : jnumToString (budgetValue (cleanBudget (extractBudgetStr "500k").data)) =
        "500000" := by decide
    simp only [handleMessageCore, hn, hst]
    simp [hlead, isGreeting, stageAskedBudget, hb, hv, response0, List.lookup]
  · intro i hm hlead hst
    rw [handleMessage_str i "1,200,000" hm]
    have hn : jsTrim (jsToLower "1,200,000") = "1,200,000" := by decide
    have hb : budgetShape (cleanBudget (extractBudgetStr "1,200,000").data) = true := by
      decide
    have hv : jnumToString (budgetValue (cleanBudget (extractBudgetStr "1,200,000").data)) =
        "1200000" := by decide
    simp only [handleMessageCore, hn, hst]
    simp [hlead, isGreeting, stageAskedBudget, hb, hv, response0, List.lookup]
  · intro i hm hlead hst
    rw [handleMessage_str i "abc" hm]
    have hn : jsTrim (jsToLower "abc") = "abc" := by decide
    have hb : budgetShape (cleanBudget (extractBudgetStr "abc").data) = false := by decide
    simp only [handleMessageCore, hn, hst]
    simp [hlead, isGreeting, stageAskedBudget, hb, response0]

/-- C3 witness: the concrete lead of `inputC3`, rejected by the general
budget-shape part. -/
theorem C3_budget_parsing_witness :
    (handleMessage inputC3).action = "invalid" ∧ (handleMessage inputC3).updateFields = [] :=
  C3_budget_parsing.1 inputC3 "plenty!" rfl (by decide) rfl (by decide) (by decide)

/-- The first configured type whose lower-cased name occurs in the message is
detected (source lines 116-121). -/
theorem detectType_first_match (msg : String) (L : List String)
    (hmem : "Rent" ∈ L)
    (hinc : jsIncludes msg "rent" = true)
    (hearlier : ∀ t ∈ L.takeWhile (fun t => t != "Rent"), jsIncludes msg (jsToLower t) = false) :
    detectType msg L = some "Rent" := by
  induction L with
  | nil => cases hmem
  | cons t ts ih =>
    by_cases ht : t = "Rent"
    · subst ht
      have : jsToLower "Rent" = "rent" := by decide
      simp [detectType, this, hinc]
    · have htw : (t :: ts).takeWhile (fun t => t != "Rent") =
          t :: ts.takeWhile (fun t => t != "Rent") := by
        rw [List.takeWhile_cons]
        simp [ht]
      have hthead := hearlier t (by rw [htw]; exact List.mem_cons_self t _)
      have hmem' : "Rent" ∈ ts := by
        rcases List.mem_cons.mp hmem with h | h
        · exact absurd h.symm ht
        · exact h
      have hrest : ∀ u ∈ ts.takeWhile (fun t => t != "Rent"),
          jsIncludes msg (jsToLower u) = false := by
        intro u hu
        exact hearlier u (by rw [htw]; exact List.mem_cons_of_mem t hu)
      simp [detectType, hthead]
      exact ih hmem' hrest

/-- C6 counterexample: the claim as stated is refuted by the first message
`"buy or rent"` with configured types `"Buy, Rent"`: the detection loop takes
the first configured type occurring in the message, so the lead is created
with interest `"Buy"`, not `"Rent"`. -/
theorem C6_counterexample :
    ¬ (∀ (i : Input) (m : String), i.message = JSVal.str m → i.lead_id = "" →
        "Rent" ∈ typesListOf (jsOrS i.tenant_property_types "Buy, Rent") →
        jsIncludes (jsToLower m) "rent" = true →
        (handleMessage i).updateFields.lookup "Interest" = some (FieldVal.s "Rent") ∧
        (handleMessage i).updateFields.lookup "Conversation Stage" =
          some (FieldVal.s "asked_name")) := by
  intro h
  have hc := h inputC6ce "buy or rent" rfl rfl (by decide) (by decide)
  exact absurd hc.1 (by decide)

/-- C6 (amended): for a first inbound message from an unknown phone, when
`"Rent"` is among the configured property types, the lower-cased message
contains `"rent"`, and no type listed before `"Rent"` has its name occur in
the message, the lead is created with interest `"Rent"` at stage
`asked_name`, skipping the type-selection question. -/
theorem C6_new_lead_rent_detection (i : Input) (m : String)
    (hm : i.message = JSVal.str m)
    (hid : i.lead_id = "")
    (hmem : "Rent" ∈ typesListOf (jsOrS i.tenant_property_types "Buy, Rent"))
    (hinc : jsIncludes (jsToLower m) "rent" = true)
    (hearlier : ∀ t ∈ (typesListOf (jsOrS i.tenant_property_types "Buy, Rent")).takeWhile
        (fun t => t != "Rent"),
      jsIncludes (jsToLower m) (jsToLower t) = false) :
    (handleMessage i).action = "create" ∧
    (handleMessage i).createLead = true ∧
    (handleMessage i).updateFields.lookup "Interest" = some (FieldVal.s "Rent") ∧
    (handleMessage i).updateFields.lookup "Conversation Stage" =
      some (FieldVal.s "asked_name") := by
  rw [handleMessage_str i m hm]
  have hdet := detectType_first_match (jsToLower m) _ hmem hinc hearlier
  simp only [handleMessageCore, hid]
  simp [newUserResponse, detectedTypeOf, hdet, response0, List.lookup]

/-- C6 witness: the concrete first-contact message of `inputC6`. -/
theorem C6_new_lead_rent_detection_witness :
    (handleMessage inputC6).action = "create" ∧
    (handleMessage inputC6).createLead = true ∧
    (handleMessage inputC6).updateFields.lookup "Interest" = some (FieldVal.s "Rent") ∧
    (handleMessage inputC6).updateFields.lookup "Conversation Stage" =
      some (FieldVal.s "asked_name") :=
  C6_new_lead_rent_detection inputC6 "looking to rent" rfl rfl (by decide) (by decide)
    (by decide)

/-! ## Per-handler frame lemmas -/

theorem followupResponse_invalid (i : Input) (m : String) :
    (followupResponse i m).action = "invalid" → (followupResponse i m).updateFields = [] := by
  by_cases hm1 : m = "1" <;> simp [followupResponse, hm1, response0]

theorem newUserResponse_invalid (i : Input) (m : String) :
    (newUserResponse i m).action = "invalid" → (newUserResponse i m).updateFields = [] := by
  simp only [newUserResponse]
  cases hd : detectedTypeOf (typesListOf (jsOrS i.tenant_property_types "Buy, Rent"))
      (jsToLower m) <;>
    simp [response0]

theorem greetingResponse_invalid (i : Input) :
    (greetingResponse i).action = "invalid" → (greetingResponse i).updateFields = [] := by
  simp [greetingResponse, response0]

theorem stageBuyOrRent_invalid (i : Input) (m : String) :
    (stageBuyOrRent i m).action = "invalid" → (stageBuyOrRent i m).updateFields = [] := by
  simp only [stageBuyOrRent]
  cases hd : lookupLast (buildTypeMapping 0
      (typesListOf (jsOrS i.tenant_property_types "Buy, Rent"))) m with
  | none => simp [response0]
  | some t => by_cases ht : t = "" <;> simp [ht, response0]

theorem stageAskedName_invalid (m : String) :
    (stageAskedName m).action = "invalid" → (stageAskedName m).updateFields = [] := by
  simp only [stageAskedName]
  by_cases hc : extractName m = "" ∨ (extractName m).length < 2 <;> simp [hc, response0]

theorem stageAskedBudget_invalid (i : Input) (m : String) :
    (stageAskedBudget i m).action = "invalid" → (stageAskedBudget i m).updateFields = [] := by
  simp only [stageAskedBudget]
  by_cases hb : budgetShape (cleanBudget (extractBudgetStr m).data) = true <;>
    simp [hb, response0]

theorem stageAskedLocation_invalid (i : Input) (m : String) :
    (stageAskedLocation i m).action = "invalid" →
    (stageAskedLocation i m).updateFields = [] := by
  simp only [stageAskedLocation]
  by_cases hb : hasTwoAlphaL (extractLocation m).data = true <;> simp [hb, response0]

theorem stageAskedSize_invalid (i : Input) (m : String) :
    (stageAskedSize i m).action = "invalid" → (stageAskedSize i m).updateFields = [] := by
  simp only [stageAskedSize]
  cases hd : jsParseInt (extractBedroomsStr m).data with
  | none => simp [response0]
  | some b => by_cases hb : b < 1 ∨ b > 20 <;> simp [hb, response0]

theorem stageAskedLandSize_invalid (i : Input) (m o : String) :
    (stageAskedLandSize i m o).action = "invalid" →
    (stageAskedLandSize i m o).updateFields = [] := by
  simp only [stageAskedLandSize]
  by_cases hc : (extractPlotSize m o).length < 2 <;> simp [hc, response0]

theorem stageCompleted_invalid (m : String) :
    (stageCompleted m).action = "invalid" → (stageCompleted m).updateFields = [] := by
  simp only [stageCompleted]
  cases hd : extractPropertyNumber m with
  | none => simp [response0]
  | some n => by_cases hn : n = 0 <;> simp [hn, response0]

theorem stageAwaitingTimeSlot_invalid (m : String) :
    (stageAwaitingTimeSlot m).action = "invalid" →
    (stageAwaitingTimeSlot m).updateFields = [] := by
  simp only [stageAwaitingTimeSlot]
  cases hd : extractSlotNumber m with
  | none => simp [response0]
  | some n => by_cases hn : n = 0 <;> simp [hn, response0]

set_option maxHeartbeats 1600000 in
/-- Case-analysis principle for the dispatch chain of `handleMessageCore`:
to prove a property of the router output it suffices to prove it of each
branch handler, under that branch's guard conditions. -/
theorem handleMessageCore_cases (i : Input) (orig : String) (P : Response → Prop)
    (h1 : i.lead_id ≠ "" → i.awaiting_followup_response = true →
      (jsTrim (jsToLower orig) = "1" ∨ jsTrim (jsToLower orig) = "2") →
      P (followupResponse i (jsTrim (jsToLower orig))))
    (h2 : i.lead_id = "" → P (newUserResponse i orig))
    (h3 : isGreeting (jsTrim (jsToLower orig)) = true → P (greetingResponse i))
    (h4 : i.lead_stage = "asked_buy_or_rent" →
      P (stageBuyOrRent i (jsTrim (jsToLower orig))))
    (h5 : i.lead_stage = "asked_name" → P (stageAskedName (jsTrim (jsToLower orig))))
    (h6 : i.lead_stage = "asked_budget" →
      P (stageAskedBudget i (jsTrim (jsToLower orig))))
    (h7 : i.lead_stage = "asked_location" →
      P (stageAskedLocation i (jsTrim (jsToLower orig))))
    (h8 : i.lead_stage = "asked_size" → P (stageAskedSize i (jsTrim (jsToLower orig))))
    (h9 : i.lead_stage = "asked_land_size" →
      P (stageAskedLandSize i (jsTrim (jsToLower orig)) orig))
    (h10 : i.lead_stage = "completed" → P (stageCompleted (jsTrim (jsToLower orig))))
    (h11 : i.lead_stage = "awaiting_time_slot" →
      P (stageAwaitingTimeSlot (jsTrim (jsToLower orig))))
    (h12 : i.lead_stage = "booking_confirmed" →
      jsIncludes (jsTrim (jsToLower orig)) "cancel" = true → P cancelResponse)
    (h13 : P (defaultResponse i.lead_stage)) :
    P (handleMessageCore i orig) := by
  simp only [handleMessageCore]
  by_cases c1 : i.lead_id ≠ "" ∧ i.awaiting_followup_response = true ∧
      (jsTrim (jsToLower orig) = "1" ∨ jsTrim (jsToLower orig) = "2")
  · rw [if_pos c1]; exact h1 c1.1 c1.2.1 c1.2.2
  rw [if_neg c1]
  by_cases c2 : ¬i.lead_id ≠ ""
  · rw [if_pos c2]; exact h2 (not_not.mp c2)
  rw [if_neg c2]
  by_cases c3 : isGreeting (jsTrim (jsToLower orig)) = true
  · rw [if_pos c3]; exact h3 c3
  rw [if_neg c3]
  by_cases c4 : i.lead_stage = "asked_buy_or_rent"
  · rw [if_pos c4]; exact h4 c4
  rw [if_neg c4]
  by_cases c5 : i.lead_stage = "asked_name"
  · rw [if_pos c5]; exact h5 c5
  rw [if_neg c5]
  by_cases c6 : i.lead_stage = "asked_budget"
  · rw [if_pos c6]; exact h6 c6
  rw [if_neg c6]
  by_cases c7 : i.lead_stage = "asked_location"
  · rw [if_pos c7]; exact h7 c7
  rw [if_neg c7]
  by_cases c8 : i.lead_stage = "asked_size"
  · rw [if_pos c8]; exact h8 c8
  rw [if_neg c8]
  by_cases c9 : i.lead_stage = "asked_land_size"
  · rw [if_pos c9]; exact h9 c9
  rw [if_neg c9]
  by_cases c10 : i.lead_stage = "completed"
  · rw [if_pos c10]; exact h10 c10
  rw [if_neg c10]
  by_cases c11 : i.lead_stage = "awaiting_time_slot"
  · rw [if_pos c11]; exact h11 c11
  rw [if_neg c11]
  by_cases c12 : i.lead_stage = "booking_confirmed" ∧
      jsIncludes (jsTrim (jsToLower orig)) "cancel" = true
  · rw [if_pos c12]; exact h12 c12.1 c12.2
  rw [if_neg c12]
  exact h13

theorem handleMessageCore_invalid (i : Input) (orig : String) :
    (handleMessageCore i orig).action = "invalid" →
    (handleMessageCore i orig).updateFields = [] := by
  refine handleMessageCore_cases i orig
    (fun r => r.action = "invalid" → r.updateFields = []) ?_ ?_ ?_ ?_ ?_ ?_ ?_ ?_ ?_ ?_ ?_ ?_ ?_
  · intro _ _ _; exact followupResponse_invalid i _
  · intro _; exact newUserResponse_invalid i orig
  · intro _; exact greetingResponse_invalid i
  · intro _; exact stageBuyOrRent_invalid i _
  · intro _; exact stageAskedName_invalid _
  · intro _; exact stageAskedBudget_invalid i _
  · intro _; exact stageAskedLocation_invalid i _
  · intro _; exact stageAskedSize_invalid i _
  · intro _; exact stageAskedLandSize_invalid i _ orig
  · intro _; exact stageCompleted_invalid _
  · intro _; exact stageAwaitingTimeSlot_invalid _
  · intro _ _; simp [cancelResponse, response0]
  · simp [defaultResponse, response0]

/-- C2: whenever the router answers with action `"invalid"` (a validation
failure at any stage, or the catch-all help prompt), `updateFields` is empty:
no lead field is persisted on a rejected input. -/
theorem C2_invalid_empty_updateFields (i : Input)
    (h : (handleMessage i).action = "invalid") :
    (handleMessage i).updateFields = [] := by
  unfold handleMessage at h ⊢
  cases e : origMessageE i.message with
  | error err =>
    rw [e] at h
    simp [errorResponse, response0] at h
  | ok orig =>
    rw [e] at h
    exact handleMessageCore_invalid i orig h

/-- C2 witness: the concrete rejected input of `inputC2`. -/
theorem C2_invalid_empty_updateFields_witness :
    (handleMessage inputC2).updateFields = [] :=
  C2_invalid_empty_updateFields inputC2 (by decide)

/-! ## Per-handler action lemmas -/

theorem followupResponse_action (i : Input) (m : String) :
    (followupResponse i m).action ∈ routerActions := by
  by_cases hm1 : m = "1" <;> simp [followupResponse, hm1, routerActions]

theorem newUserResponse_action (i : Input) (m : String) :
    (newUserResponse i m).action ∈ routerActions := by
  simp only [newUserResponse]
  cases hd : detectedTypeOf (typesListOf (jsOrS i.tenant_property_types "Buy, Rent"))
      (jsToLower m) <;>
    simp [routerActions]

theorem stageBuyOrRent_action (i : Input) (m : String) :
    (stageBuyOrRent i m).action ∈ routerActions := by
  simp only [stageBuyOrRent]
  cases hd : lookupLast (buildTypeMapping 0
      (typesListOf (jsOrS i.tenant_property_types "Buy, Rent"))) m with
  | none => simp [routerActions]
  | some t => by_cases ht : t = "" <;> simp [ht, routerActions]

theorem stageAskedName_action (m : String) :
    (stageAskedName m).action ∈ routerActions := by
  simp only [stageAskedName]
  by_cases hc : extractName m = "" ∨ (extractName m).length < 2 <;>
    simp [hc, routerActions]

theorem stageAskedBudget_action (i : Input) (m : String) :
    (stageAskedBudget i m).action ∈ routerActions := by
  simp only [stageAskedBudget]
  by_cases hb : budgetShape (cleanBudget (extractBudgetStr m).data) = true <;>
    simp [hb, routerActions]

theorem stageAskedLocation_action (i : Input) (m : String) :
    (stageAskedLocation i m).action ∈ routerActions := by
  simp only [stageAskedLocation]
  by_cases hb : hasTwoAlphaL (extractLocation m).data = true <;> simp [hb, routerActions]

theorem stageAskedSize_action (i : Input) (m : String) :
    (stageAskedSize i m).action ∈ routerActions := by
  simp only [stageAskedSize]
  cases hd : jsParseInt (extractBedroomsStr m).data with
  | none => simp [routerActions]
  | some b => by_cases hb : b < 1 ∨ b > 20 <;> simp [hb, routerActions]

theorem stageAskedLandSize_action (i : Input) (m o : String) :
    (stageAskedLandSize i m o).action ∈ routerActions := by
  simp only [stageAskedLandSize]
  by_cases hc : (extractPlotSize m o).length < 2 <;> simp [hc, routerActions]

theorem stageCompleted_action (m : String) :
    (stageCompleted m).action ∈ routerActions := by
  simp only [stageCompleted]
  cases hd : extractPropertyNumber m with
  | none => simp [routerActions]
  | some n => by_cases hn : n = 0 <;> simp [hn, routerActions]

theorem stageAwaitingTimeSlot_action (m : String) :
    (stageAwaitingTimeSlot m).action ∈ routerActions := by
  simp only [stageAwaitingTimeSlot]
  cases hd : extractSlotNumber m with
  | none => simp [routerActions]
  | some n => by_cases hn : n = 0 <;> simp [hn, routerActions]

theorem handleMessageCore_action (i : Input) (orig : String) :
    (handleMessageCore i orig).action ∈ routerActions := by
  refine handleMessageCore_cases i orig (fun r => r.action ∈ routerActions)
    ?_ ?_ ?_ ?_ ?_ ?_ ?_ ?_ ?_ ?_ ?_ ?_ ?_
  · intro _ _ _; exact followupResponse_action i _
  · intro _; exact newUserResponse_action i orig
  · intro _; simp [greetingResponse, routerActions]
  · intro _; exact stageBuyOrRent_action i _
  · intro _; exact stageAskedName_action _
  · intro _; exact stageAskedBudget_action i _
  · intro _; exact stageAskedLocation_action i _
  · intro _; exact stageAskedSize_action i _
  · intro _; exact stageAskedLandSize_action i _ orig
  · intro _; exact stageCompleted_action _
  · intro _; exact stageAwaitingTimeSlot_action _
  · intro _ _; simp [cancelResponse, routerActions]
  · simp [defaultResponse, routerActions]

/-- C1: for every input record, including ones whose message field holds a
malformed (non-string) value, `handleMessage` returns a response descriptor
whose action is one of the defined tags, and any fault of the try-block body
(here: the type error raised by `.toLowerCase()` on a truthy non-string
message) is caught at the router boundary and converted to a descriptor with
action `"error"` and the apologetic user-facing reply. -/
theorem C1_router_never_throws (i : Input) :
    (handleMessage i).action ∈ routerActions ∧
    (∀ e, origMessageE i.message = Except.error e →
      (handleMessage i).action = "error" ∧
      (handleMessage i).replyMessage =
        "Oops! Something went wrong. Please try again or send HI to restart.") := by
  constructor
  · unfold handleMessage
    cases e : origMessageE i.message with
    | error err => simp [errorResponse, response0, routerActions]
    | ok orig => exact handleMessageCore_action i orig
  · intro e he
    unfold handleMessage
    rw [he]
    simp [errorResponse, response0]

/-- C1 witness: the concrete malformed input of `inputC1` is converted to the
generic error descriptor. -/
theorem C1_router_never_throws_witness :
    (handleMessage inputC1).action = "error" ∧
    (handleMessage inputC1).replyMessage =
      "Oops! Something went wrong. Please try again or send HI to restart." :=
  (C1_router_never_throws inputC1).2
    "TypeError: originalMessage.toLowerCase is not a function" rfl

/-! ## Per-handler stage-transition lemmas -/

theorem stageBuyOrRent_stage (i : Input) (m : String) (v : FieldVal) :
    (stageBuyOrRent i m).updateFields.lookup "Conversation Stage" = some v →
    v = FieldVal.s "asked_name" := by
  simp only [stageBuyOrRent]
  cases hd : lookupLast (buildTypeMapping 0
      (typesListOf (jsOrS i.tenant_property_types "Buy, Rent"))) m with
  | none => simp [response0]
  | some t =>
    by_cases ht : t = "" <;> simp [ht, response0, List.lookup, eq_comm]

theorem stageAskedName_stage (m : String) (v : FieldVal) :
    (stageAskedName m).updateFields.lookup "Conversation Stage" = some v →
    v = FieldVal.s "asked_budget" := by
  simp only [stageAskedName]
  by_cases hc : extractName m = "" ∨ (extractName m).length < 2
  · rw [if_pos hc]; simp [response0]
  · rw [if_neg hc]; simp [List.lookup, eq_comm]

theorem stageAskedBudget_stage (i : Input) (m : String) (v : FieldVal) :
    (stageAskedBudget i m).updateFields.lookup "Conversation Stage" = some v →
    v = FieldVal.s "fetching_locations" := by
  simp only [stageAskedBudget]
  by_cases hb : budgetShape (cleanBudget (extractBudgetStr m).data) = true <;>
    simp [hb, response0, List.lookup, eq_comm]

theorem stageAskedLocation_stage (i : Input) (m : String) (v : FieldVal) :
    (stageAskedLocation i m).updateFields.lookup "Conversation Stage" = some v →
    v = FieldVal.s "fetching_sizes" := by
  simp only [stageAskedLocation]
  by_cases hb : hasTwoAlphaL (extractLocation m).data = true <;>
    simp [hb, response0, List.lookup, eq_comm]

theorem stageAskedSize_stage (i : Input) (m : String) (v : FieldVal) :
    (stageAskedSize i m).updateFields.lookup "Conversation Stage" = some v →
    v = FieldVal.s "completed" := by
  simp only [stageAskedSize]
  cases hd : jsParseInt (extractBedroomsStr m).data with
  | none => simp [response0]
  | some b => by_cases hb : b < 1 ∨ b > 20 <;> simp [hb, response0, List.lookup, eq_comm]

theorem stageAskedLandSize_stage (i : Input) (m o : String) (v : FieldVal) :
    (stageAskedLandSize i m o).updateFields.lookup "Conversation Stage" = some v →
    v = FieldVal.s "completed" := by
  simp only [stageAskedLandSize]
  by_cases hc : (extractPlotSize m o).length < 2 <;>
    simp [hc, response0, List.lookup, eq_comm]

theorem stageCompleted_stage (m : String) (v : FieldVal) :
    (stageCompleted m).updateFields.lookup "Conversation Stage" = some v →
    v = FieldVal.s "awaiting_time_slot" := by
  simp only [stageCompleted]
  cases hd : extractPropertyNumber m with
  | none => simp [response0]
  | some n => by_cases hn : n = 0 <;> simp [hn, response0, List.lookup, eq_comm]

theorem stageAwaitingTimeSlot_stage (m : String) (v : FieldVal) :
    (stageAwaitingTimeSlot m).updateFields.lookup "Conversation Stage" = some v →
    v = FieldVal.s "booking_confirmed" := by
  simp only [stageAwaitingTimeSlot]
  cases hd : extractSlotNumber m with
  | none => simp [response0]
  | some n => by_cases hn : n = 0 <;> simp [hn, response0, List.lookup, eq_comm]

/-- C8 counterexample: the claim as stated (every stage write is strictly
forward along the defined sequence, excepting only the greeting restart and
the cancel path) is refuted by the follow-up path: at stage `completed` with
the awaiting-follow-up flag set, message `"1"` writes the stage
`interested_after_viewing`, which lies outside the defined sequence. -/
theorem C8_counterexample :
    ¬ (∀ (i : Input) (m : String) (v : FieldVal), i.message = JSVal.str m →
        i.lead_id ≠ "" →
        (handleMessage i).updateFields.lookup "Conversation Stage" = some v →
        isGreeting (jsTrim (jsToLower m)) = true ∨
        (i.lead_stage = "booking_confirmed" ∧
          jsIncludes (jsTrim (jsToLower m)) "cancel" = true) ∨
        (∃ a b s', v = FieldVal.s s' ∧ stageIdx i.lead_stage = some a ∧
          stageIdx s' = some b ∧ a < b)) := by
  intro h
  have hc := h inputC8ce "1" (FieldVal.s "interested_after_viewing") rfl (by decide)
    (by decide)
  rcases hc with hg | hcan | ⟨a, b, s', hs, ha, hb, hab⟩
  · exact absurd hg (by decide)
  · exact absurd hcan.1 (by decide)
  · injection hs with hs'
    rw [← hs'] at hb
    simp [stageIdx] at hb

/-- C8 (amended): for every existing lead, whenever the router's
`updateFields` writes `Conversation Stage`, the new stage is strictly later
than the input stage along the defined sequence, except on the greeting
restart path, the cancel path, and the follow-up response path (which writes
`interested_after_viewing` or `not_interested_after_viewing`, outside the
sequence). -/
theorem C8_stage_monotonic (i : Input) (m : String) (v : FieldVal)
    (hm : i.message = JSVal.str m)
    (hlead : i.lead_id ≠ "")
    (hv : (handleMessage i).updateFields.lookup "Conversation Stage" = some v) :
    isGreeting (jsTrim (jsToLower m)) = true ∨
    (i.lead_stage = "booking_confirmed" ∧
      jsIncludes (jsTrim (jsToLower m)) "cancel" = true) ∨
    (i.awaiting_followup_response = true ∧
      (jsTrim (jsToLower m) = "1" ∨ jsTrim (jsToLower m) = "2")) ∨
    (∃ a b s', v = FieldVal.s s' ∧ stageIdx i.lead_stage = some a ∧
      stageIdx s' = some b ∧ a < b) := by
  rw [handleMessage_str i m hm] at hv
  revert hv
  refine handleMessageCore_cases i m (fun r =>
      r.updateFields.lookup "Conversation Stage" = some v →
      isGreeting (jsTrim (jsToLower m)) = true ∨
      (i.lead_stage = "booking_confirmed" ∧
        jsIncludes (jsTrim (jsToLower m)) "cancel" = true) ∨
      (i.awaiting_followup_response = true ∧
        (jsTrim (jsToLower m) = "1" ∨ jsTrim (jsToLower m) = "2")) ∨
      (∃ a b s', v = FieldVal.s s' ∧ stageIdx i.lead_stage = some a ∧
        stageIdx s' = some b ∧ a < b))
    ?_ ?_ ?_ ?_ ?_ ?_ ?_ ?_ ?_ ?_ ?_ ?_ ?_
  · intro _ haw hor _
    exact Or.inr (Or.inr (Or.inl ⟨haw, hor⟩))
  · intro hid
    exact absurd hid hlead
  · intro hg _
    exact Or.inl hg
  · intro hst hv
    refine Or.inr (Or.inr (Or.inr ⟨0, 1, "asked_name",
      stageBuyOrRent_stage i _ v hv, ?_, by decide, by decide⟩))
    rw [hst]; decide
  · intro hst hv
    refine Or.inr (Or.inr (Or.inr ⟨1, 2, "asked_budget",
      stageAskedName_stage _ v hv, ?_, by decide, by decide⟩))
    rw [hst]; decide
  · intro hst hv
    refine Or.inr (Or.inr (Or.inr ⟨2, 3, "fetching_locations",
      stageAskedBudget_stage i _ v hv, ?_, by decide, by decide⟩))
    rw [hst]; decide
  · intro hst hv
    refine Or.inr (Or.inr (Or.inr ⟨4, 5, "fetching_sizes",
      stageAskedLocation_stage i _ v hv, ?_, by decide, by decide⟩))
    rw [hst]; decide
  · intro hst hv
    refine Or.inr (Or.inr (Or.inr ⟨6, 7, "completed",
      stageAskedSize_stage i _ v hv, ?_, by decide, by decide⟩))
    rw [hst]; decide
  · intro hst hv
    refine Or.inr (Or.inr (Or.inr ⟨6, 7, "completed",
      stageAskedLandSize_stage i _ m v hv, ?_, by decide, by decide⟩))
    rw [hst]; decide
  · intro hst hv
    refine Or.inr (Or.inr (Or.inr ⟨7, 8, "awaiting_time_slot",
      stageCompleted_stage _ v hv, ?_, by decide, by decide⟩))
    rw [hst]; decide
  · intro hst hv
    refine Or.inr (Or.inr (Or.inr ⟨8, 9, "booking_confirmed",
      stageAwaitingTimeSlot_stage _ v hv, ?_, by decide, by decide⟩))
    rw [hst]; decide
  · intro hbk hcanc _
    exact Or.inr (Or.inl ⟨hbk, hcanc⟩)
  · intro hv
    simp [defaultResponse, response0] at hv

/-- C8 witness: the concrete forward transition of `inputC8`. -/
theorem C8_stage_monotonic_witness :
    isGreeting (jsTrim (jsToLower "5M")) = true ∨
    (inputC8.lead_stage = "booking_confirmed" ∧
      jsIncludes (jsTrim (jsToLower "5M")) "cancel" = true) ∨
    (inputC8.awaiting_followup_response = true ∧
      (jsTrim (jsToLower "5M") = "1" ∨ jsTrim (jsToLower "5M") = "2")) ∨
    (∃ a b s', FieldVal.s "fetching_locations" = FieldVal.s s' ∧
      stageIdx inputC8.lead_stage = some a ∧ stageIdx s' = some b ∧ a < b) :=
  C8_stage_monotonic inputC8 "5M" (FieldVal.s "fetching_locations") rfl (by decide)
    (by decide)

/-! ## C10: the slot-calculation endpoint -/

theorem mem_hoursRange (workStart workEnd h : Int)
    (hmem : h ∈ (List.range (workEnd - workStart).toNat).map
      (fun (j : Nat) => workStart + (j : Int))) :
    workStart ≤ h ∧ h < workEnd := by
  rcases List.mem_map.mp hmem with ⟨j, hj, rfl⟩
  rw [List.mem_range] at hj
  have := Int.lt_toNat.mp hj
  omega

theorem slotStep_preserves (propertyId : String) (events : List BookedEvent)
    (workStart workEnd now day h : Int)
    (hwd : ¬(weekday day = 0 ∨ weekday day = 6))
    (hk : ∃ k : Int, day = k * dayMs)
    (hh : workStart ≤ h ∧ h < workEnd)
    (acc : List Slot)
    (hlen : acc.length ≤ 5)
    (hall : ∀ s ∈ acc, goodSlot propertyId events workStart workEnd now s) :
    (slotStep ((events.filter (fun e => e.propertyId == propertyId)).map
        (fun e => (e.start, e.«end»))) (now + hourMs) day acc h).length ≤ 5 ∧
    ∀ s ∈ slotStep ((events.filter (fun e => e.propertyId == propertyId)).map
        (fun e => (e.start, e.«end»))) (now + hourMs) day acc h,
      goodSlot propertyId events workStart workEnd now s := by
  simp only [slotStep]
  split_ifs with h1 h2 h3
  · exact ⟨hlen, hall⟩
  · exact ⟨hlen, hall⟩
  · constructor
    · simp only [List.length_append, List.length_singleton]
      omega
    · intro s hsmem
      rcases List.mem_append.mp hsmem with hs | hs
      · exact hall s hs
      · have hseq : s = ⟨day + h * hourMs, day + h * hourMs + hourMs⟩ := by
          simpa using hs
        subst hseq
        refine ⟨rfl, not_le.mp h2, ⟨day, h, hk, ?_, ?_, hh.1, hh.2, rfl⟩, ?_⟩
        · intro hw; exact hwd (Or.inl hw)
        · intro hw; exact hwd (Or.inr hw)
        · intro e he hpe hcl
          have h3' : slotOverlaps ((events.filter (fun e => e.propertyId == propertyId)).map
              (fun e => (e.start, e.«end»))) (day + h * hourMs)
              (day + h * hourMs + hourMs) = false := by
            simpa using h3
          rw [slotOverlaps, List.any_eq_false] at h3'
          have hb : (e.start, e.«end») ∈
              (events.filter (fun e => e.propertyId == propertyId)).map
                (fun e => (e.start, e.«end»)) :=
            List.mem_map.mpr ⟨e, List.mem_filter.mpr ⟨he, by simp [hpe]⟩, rfl⟩
          have hne := h3' _ hb
          simp only [Bool.and_eq_true, decide_eq_true_eq, not_and] at hne
          exact absurd (hne hcl.1) (by simpa using hcl.2)
  · exact ⟨hlen, hall⟩

theorem slotStep_fold_inv (propertyId : String) (events : List BookedEvent)
    (workStart workEnd now day : Int)
    (hwd : ¬(weekday day = 0 ∨ weekday day = 6))
    (hk : ∃ k : Int, day = k * dayMs)
    (hs : List Int) (hmem : ∀ h ∈ hs, workStart ≤ h ∧ h < workEnd)
    (acc : List Slot)
    (hlen : acc.length ≤ 5)
    (hall : ∀ s ∈ acc, goodSlot propertyId events workStart workEnd now s) :
    (hs.foldl (slotStep ((events.filter (fun e => e.propertyId == propertyId)).map
        (fun e => (e.start, e.«end»))) (now + hourMs) day) acc).length ≤ 5 ∧
    ∀ s ∈ hs.foldl (slotStep ((events.filter (fun e => e.propertyId == propertyId)).map
        (fun e => (e.start, e.«end»))) (now + hourMs) day) acc,
      goodSlot propertyId events workStart workEnd now s := by
  induction hs generalizing acc with
  | nil => exact ⟨hlen, hall⟩
  | cons h t ih =>
    simp only [List.foldl_cons]
    have hstep := slotStep_preserves propertyId events workStart workEnd now day h hwd hk
      (hmem h (List.mem_cons_self h t)) acc hlen hall
    exact ih (fun x hx => hmem x (List.mem_cons_of_mem h hx)) _ hstep.1 hstep.2

theorem slotDays_fold_inv (propertyId : String) (events : List BookedEvent)
    (workStart workEnd now : Int)
    (is : List Nat) (acc : List Slot)
    (hlen : acc.length ≤ 5)
    (hall : ∀ s ∈ acc, goodSlot propertyId events workStart workEnd now s) :
    (is.foldl (fun acc (i : Nat) =>
        if weekday ((Int.fdiv now dayMs + (i : Int)) * dayMs) = 0 ∨
            weekday ((Int.fdiv now dayMs + (i : Int)) * dayMs) = 6 then acc
        else ((List.range (workEnd - workStart).toNat).map (fun (j : Nat) => workStart + (j : Int))).foldl
          (slotStep ((events.filter (fun e => e.propertyId == propertyId)).map
            (fun e => (e.start, e.«end»))) (now + hourMs)
            ((Int.fdiv now dayMs + (i : Int)) * dayMs)) acc) acc).length ≤ 5 ∧
    ∀ s ∈ is.foldl (fun acc (i : Nat) =>
        if weekday ((Int.fdiv now dayMs + (i : Int)) * dayMs) = 0 ∨
            weekday ((Int.fdiv now dayMs + (i : Int)) * dayMs) = 6 then acc
        else ((List.range (workEnd - workStart).toNat).map (fun (j : Nat) => workStart + (j : Int))).foldl
          (slotStep ((events.filter (fun e => e.propertyId == propertyId)).map
            (fun e => (e.start, e.«end»))) (now + hourMs)
            ((Int.fdiv now dayMs + (i : Int)) * dayMs)) acc) acc,
      goodSlot propertyId events workStart workEnd now s := by
  induction is generalizing acc with
  | nil => exact ⟨hlen, hall⟩
  | cons i t ih =>
    simp only [List.foldl_cons]
    by_cases hw : weekday ((Int.fdiv now dayMs + (i : Int)) * dayMs) = 0 ∨
        weekday ((Int.fdiv now dayMs + (i : Int)) * dayMs) = 6
    · rw [if_pos hw]
      exact ih acc hlen hall
    · rw [if_neg hw]
      have hinner := slotStep_fold_inv propertyId events workStart workEnd now
        ((Int.fdiv now dayMs + (i : Int)) * dayMs) hw ⟨Int.fdiv now dayMs + (i : Int), rfl⟩
        ((List.range (workEnd - workStart).toNat).map (fun (j : Nat) => workStart + (j : Int)))
        (fun x hx => mem_hoursRange workStart workEnd x hx) acc hlen hall
      exact ih _ hinner.1 hinner.2

/-- C10: every response of the slot-calculation operation returns at most 5
slots, and every returned slot is exactly 60 minutes long, starts on a whole
hour of the working window `[workStart, workEnd)` on a non-weekend local day,
starts strictly more than one hour after the current time, and overlaps no
booked event whose `propertyId` equals the requested one. -/
theorem C10_slot_calculation (propertyId : String) (events : List BookedEvent)
    (workStart workEnd : Int) (daysAhead : Nat) (now : Int) :
    (availableSlots propertyId events workStart workEnd daysAhead now).length ≤ 5 ∧
    ∀ s ∈ availableSlots propertyId events workStart workEnd daysAhead now,
      goodSlot propertyId events workStart workEnd now s := by
  simp only [availableSlots]
  exact slotDays_fold_inv propertyId events workStart workEnd now
    (List.range daysAhead) [] (by simp) (by simp)

set_option maxRecDepth 4000 in
/-- C10 witness: with no booked events, the epoch (a Thursday midnight in the
fixed-offset local time) as `now`, working hours 9-17 and a 7-day horizon,
the 09:00 slot of day zero is returned and satisfies every clause. -/
theorem C10_slot_calculation_witness :
    goodSlot "p1" [] 9 17 0 ⟨32400000, 36000000⟩ :=
  (C10_slot_calculation "p1" [] 9 17 7 0).2 ⟨32400000, 36000000⟩ (by decide)

end PropertyBot
